import Mathlib

/-!
Shallow embedding of the TERRA WhatsApp bot backend (bot.py, webhook.py,
menu_handlers.py, bot_polya_whatsapp.py) and proofs about its documented
behaviour: the pagination helper, the webhook endpoints, the per-user state
store, the report store with its daily-hour cap, and the text/callback
handlers.  Python integers are modelled as `Int` (or `Nat` where the source
value is provably nonnegative), SQL tables as Lean lists, and Python
exceptions as explicit result constructors.
-/

set_option maxHeartbeats 1000000

namespace Terra

/-- A reply button as sent to the WhatsApp gateway (`pywa.types.Button` /
the button dicts of `menu_handlers.py`): a visible title plus an opaque
callback payload. -/
structure Button where
  title : String
  callback_data : String
deriving DecidableEq

namespace Polya

/-- Result of `send_paginated_buttons` (bot_polya_whatsapp.py:674): either the
empty-list short-circuit message, or a page carrying the displayed item
subset, the button set actually sent, and the message text. -/
inductive PageOut (α : Type) where
  | emptyList (msg : String)
  | page (pageItems : List α) (buttons : List Button) (msg : String)

/-- Buttons sent by a `send_paginated_buttons` call (none in the empty case). -/
def PageOut.buttons {α : Type} : PageOut α → List Button
  | .emptyList _ => []
  | .page _ b _ => b

/-- Items displayed by a `send_paginated_buttons` call (none in the empty case). -/
def PageOut.displayed {α : Type} : PageOut α → List α
  | .emptyList _ => []
  | .page its _ _ => its

/-- The `⬅️` navigation button, `Button(title="⬅️", callback_data=f"nav:{state_key}:{page-1}")`
built with the already-clamped page. -/
def navPrevButton (state_key : String) (pageC : Nat) : Button :=
  { title := "⬅️", callback_data := "nav:" ++ state_key ++ ":" ++ toString (pageC - 1) }

/-- The `➡️` navigation button, `Button(title="➡️", callback_data=f"nav:{state_key}:{page+1}")`. -/
def navNextButton (state_key : String) (pageC : Nat) : Button :=
  { title := "➡️", callback_data := "nav:" ++ state_key ++ ":" ++ toString (pageC + 1) }

/-- The `🔙 Назад` button appended when room remains and `back_cb` is given. -/
def backButton (cb : String) : Button :=
  { title := "🔙 Назад", callback_data := cb }

/-- The navigation segment of bot_polya_whatsapp.py:716-719: one `⬅️` if
`has_prev and len(btns) < 3`, else one `➡️` if `has_next and len(btns) < 3`,
else nothing (`itemCount` is the number of item buttons built so far). -/
def paginationNavButtons (itemCount : Nat) (state_key : String)
    (pageC total_pages : Nat) : List Button :=
  if 0 < pageC ∧ itemCount < 3 then [navPrevButton state_key pageC]
  else if pageC < total_pages - 1 ∧ itemCount < 3 then [navNextButton state_key pageC]
  else []

/-- The back segment of bot_polya_whatsapp.py:721-722: the `🔙 Назад` button
when a `back_cb` was supplied and fewer than 3 buttons are present. -/
def paginationBackButtons (count : Nat) (back_cb : Option String) : List Button :=
  match back_cb with
  | some cb => if count < 3 then [backButton cb] else []
  | none => []

/-- `send_paginated_buttons` (bot_polya_whatsapp.py:674-725), with the two
side-effecting `client.send_message` calls reified into `PageOut`.  The
requested page index arrives as a Python `int` (possibly negative, since it
is parsed from a `nav:` callback) and is clamped by
`page = max(0, min(page, total_pages - 1))`. -/
def send_paginated_buttons {α : Type} (text : String) (items : List α)
    (make_button : α → Button) (state_key : String) (page : Int)
    (back_cb : Option String) : PageOut α :=
  if items.isEmpty then
    .emptyList (text ++ "\n\n_(Список пуст)_")
  else
    let base_capacity : Nat := 2
    let total_items : Nat := items.length
    let total_pages : Nat := (total_items + base_capacity - 1) / base_capacity
    let pageC : Nat := (max 0 (min page ((total_pages : Int) - 1))).toNat
    let start : Nat := pageC * base_capacity
    let stop : Nat := min (start + base_capacity) total_items
    let page_items : List α := (items.drop start).take (stop - start)
    let btns : List Button := page_items.map make_button
    let btns : List Button := btns ++ paginationNavButtons btns.length state_key pageC total_pages
    let btns : List Button := btns ++ paginationBackButtons btns.length back_cb
    let page_info : String :=
      if 1 < total_pages then
        "\n\n_Страница " ++ toString (pageC + 1) ++ " из " ++ toString total_pages ++ "_"
      else ""
    .page page_items (btns.take 3) (text ++ page_info)

/-- A row of the recent-reports listing used by the record editor
(`user_recent_24h_reports` returns `(id, work_date, activity, location,
hours, created_at)` tuples). -/
structure EditRecord where
  rid : Int
  work_date : String
  activity : String
  location : String
  hours : Int
  created_at : String
deriving DecidableEq, Inhabited

/-- Result of `render_edit_records_page` (bot_polya_whatsapp.py:768). -/
inductive EditPageOut where
  | noRecords (msg : String)
  | page (text : String) (buttons : List Button)
deriving DecidableEq

/-- Buttons sent by a `render_edit_records_page` call. -/
def EditPageOut.buttons : EditPageOut → List Button
  | .noRecords _ => []
  | .page _ b => b

/-- The navigation segment of bot_polya_whatsapp.py:806-810: only when more
than one record exists, one `⬅️` if `page > 0`, else one `➡️` if
`page < total_records - 1`. -/
def editNavButtons (total_records pageC : Nat) : List Button :=
  if 1 < total_records then
    if 0 < pageC then
      [{ title := "⬅️", callback_data := "nav:edit_records:" ++ toString (pageC - 1) }]
    else if pageC < total_records - 1 then
      [{ title := "➡️", callback_data := "nav:edit_records:" ++ toString (pageC + 1) }]
    else []
  else []

/-- `render_edit_records_page` (bot_polya_whatsapp.py:768-816): shows one
record per page with two action buttons, at most one navigation arrow, an
optional back button, and a hard `[:3]` cap. -/
def render_edit_records_page (records : List EditRecord) (page : Int) : EditPageOut :=
  if records.isEmpty then .noRecords "📝 Записей нет."
  else
    let total_records : Nat := records.length
    let pageC : Nat := (max 0 (min page ((total_records : Int) - 1))).toNat
    let r : EditRecord := records.getD pageC default
    let text : String :=
      "📝 *Запись " ++ toString (pageC + 1) ++ " из " ++ toString total_records ++ "*\n\n"
        ++ "ID: `#" ++ toString r.rid ++ "`\n"
        ++ "Дата: *" ++ r.work_date ++ "*\n"
        ++ "Место: *" ++ r.location ++ "*\n"
        ++ "Работа: *" ++ r.activity ++ "*\n"
        ++ "Часы: *" ++ toString r.hours ++ "*\n"
        ++ "Создана: _" ++ r.created_at.take 16 ++ "_\n\n"
        ++ "Листайте стрелками ⬅️/➡️, чтобы посмотреть другие записи."
    let buttons : List Button :=
      [ { title := "🖊 Править", callback_data := "edit:chg:" ++ toString r.rid ++ ":" ++ r.work_date },
        { title := "🗑 Удалить", callback_data := "edit:del:" ++ toString r.rid } ]
    let buttons : List Button := buttons ++ editNavButtons total_records pageC
    let buttons : List Button :=
      if buttons.length < 3 then buttons ++ [{ title := "🔙 Меню", callback_data := "menu:root" }]
      else buttons
    .page text (buttons.take 3)

/-- Number of pages the spec prescribes for `n` items at a display capacity
of 2 selectable items per page: `ceil(n / 2)`. -/
def totalPagesFor (n : Nat) : Nat := (n + 1) / 2

/-- The requested page index clamped to `[0, totalPages - 1]` as the spec
describes it. -/
def clampedPage (page : Int) (n : Nat) : Nat :=
  (max 0 (min page ((totalPagesFor n : Int) - 1))).toNat

end Polya

/-- A Python exception at the model level, reduced to its description. -/
abbrev PyExc := String

namespace BotMain

/-- Python truthiness of an optional query-string value: `None` and the empty
string are falsy, every other string is truthy. -/
def pyTruthyStr : Option String → Bool
  | none => false
  | some s => s ≠ ""

/-- `webhook_verify` (bot.py:45-77), the GET verification endpoint.  Query
parameters are `Option String` (absent → `None`).  The endpoint answers
`(challenge or "ok", 200)` on a correct `subscribe`/token pair, 403 when both
parameters are present but wrong, and 400 when either is missing or empty. -/
def webhook_verify (verify_token : String) (mode token challenge : Option String) :
    String × Nat :=
  if pyTruthyStr mode && pyTruthyStr token then
    if mode == some "subscribe" && token == some verify_token then
      ((match challenge with
        | some c => if c = "" then "ok" else c
        | none => "ok"), 200)
    else ("Forbidden", 403)
  else ("Bad Request", 400)

/-- `webhook_handler` (bot.py:80-110), the POST endpoint.  `data` is the
result of `request.get_json(silent=True)` followed by the `if not data`
check: `none` covers an unparseable, absent, or empty payload.  The payload
type μ and the processing function `handle_incoming_message` (which may raise,
modelled by `Except`) are parameters; any exception it raises is caught at
this boundary and the endpoint still answers 200. -/
def webhook_handler {μ : Type} (data : Option μ)
    (handle_incoming_message : μ → Except PyExc Unit) : Nat × String :=
  match data with
  | none => (200, "ok")
  | some d =>
    match handle_incoming_message d with
    | .ok _ => (200, "ok")
    | .error _ => (200, "ok")

end BotMain

namespace WebhookBp

/-- `webhook_verify` (webhook.py:16-38): answers `(challenge, 200)` exactly
when `hub.mode == "subscribe"` and the token matches, else
`("Forbidden", 403)`; a missing parameter simply fails the comparison. -/
def webhook_verify (verify_token : String) (mode token challenge : Option String) :
    Option String × Nat :=
  if mode == some "subscribe" && token == some verify_token then (challenge, 200)
  else (some "Forbidden", 403)

/-- `webhook_receive` (webhook.py:41-84), the POST endpoint of the Blueprint
variant.  `body` is the whole `try` prefix up to the `if not data` test:
`.error` when `request.get_json()` (no `silent=True` here) or anything else
in the outer `try` raises — caught by the outer `except`, which answers 500;
`.ok none` when the parsed payload is falsy — answered 400 ("No data");
`.ok (some msgs)` carries `data.get('messages', [])`.  Each message is then
handled inside its own `try`/`except`, so a raising
`handle_incoming_message` is only logged and the endpoint still answers
200. -/
def webhook_receive {μ : Type} (body : Except PyExc (Option (List μ)))
    (handle_incoming_message : μ → Except PyExc Unit) : Nat × String :=
  match body with
  | .error _ => (500, "error")
  | .ok none => (400, "No data")
  | .ok (some msgs) =>
    let _ := msgs.map (fun m => handle_incoming_message m)
    (200, "ok")

end WebhookBp

namespace Polya

/-- A per-user conversation state entry, `{"state": ..., "data": ...}`
(bot_polya_whatsapp.py:115-132).  The transient `data` dict is an arbitrary
type δ here, since `set_state`/`get_state`/`clear_state` never inspect it. -/
structure UserState (δ : Type) where
  state : Option String
  data : δ
deriving DecidableEq

/-- The in-memory `user_states` mapping, user id → state entry. -/
def StateStore (δ : Type) := String → Option (UserState δ)

/-- `get_state` (bot_polya_whatsapp.py:118-121): returns the entry for
`user_id`, first inserting the fresh `{"state": None, "data": {}}` entry when
absent (`d0` is the empty `data` dict `{}`). -/
def get_state {δ : Type} (d0 : δ) (m : StateStore δ) (user_id : String) :
    StateStore δ × UserState δ :=
  match m user_id with
  | some s => (m, s)
  | none =>
    let s : UserState δ := { state := none, data := d0 }
    (fun v => if v = user_id then some s else m v, s)

/-- `set_state` (bot_polya_whatsapp.py:124-128): fetches (creating if absent)
the user's entry, overwrites its `state` field, and overwrites `data` only
when the optional `data` argument is not `None`. -/
def set_state {δ : Type} (d0 : δ) (m : StateStore δ) (user_id : String)
    (state : Option String) (data : Option δ) : StateStore δ :=
  let p := get_state d0 m user_id
  let s' : UserState δ := { p.2 with state := state }
  let s'' : UserState δ :=
    match data with
    | some dd => { s' with data := dd }
    | none => s'
  fun v => if v = user_id then some s'' else p.1 v

/-- `clear_state` (bot_polya_whatsapp.py:131-132): resets the user's entry to
`{"state": None, "data": {}}`. -/
def clear_state {δ : Type} (d0 : δ) (m : StateStore δ) (user_id : String) :
    StateStore δ :=
  fun v => if v = user_id then some { state := none, data := d0 } else m v

/-- A row of the `reports` table (bot_polya_whatsapp.py:166-178).  The
`created_at` timestamp column is not modelled: no claim depends on wall-clock
time. -/
structure Report where
  id : Int
  user_id : String
  reg_name : String
  location : String
  location_grp : String
  activity : String
  activity_grp : String
  work_date : String
  hours : Int
deriving DecidableEq, Inhabited

/-- The `reports` table plus SQLite's AUTOINCREMENT counter (row ids start at
1 and are never reused). -/
structure ReportDB where
  reports : List Report
  next_id : Int
deriving DecidableEq

/-- A freshly created database: no rows, first id 1. -/
def emptyDB : ReportDB := { reports := [], next_id := 1 }

/-- `insert_report` (bot_polya_whatsapp.py:342-352): appends a row and
returns the assigned `lastrowid`. -/
def insert_report (db : ReportDB) (user_id reg_name location loc_grp activity act_grp
    work_date : String) (hours : Int) : ReportDB × Int :=
  let r : Report :=
    { id := db.next_id, user_id := user_id, reg_name := reg_name, location := location,
      location_grp := loc_grp, activity := activity, activity_grp := act_grp,
      work_date := work_date, hours := hours }
  ({ reports := db.reports ++ [r], next_id := db.next_id + 1 }, db.next_id)

/-- The SQL row filter `user_id=? AND work_date=?`. -/
def matchesUserDate (uid wd : String) (r : Report) : Bool :=
  r.user_id == uid && r.work_date == wd

/-- `sum_hours_for_user_date` (bot_polya_whatsapp.py:368-376):
`COALESCE(SUM(hours),0)` over the rows of `(user_id, work_date)`, excluding
one row id when `exclude_report_id` is truthy — Python's `if
exclude_report_id:` treats both `None` and `0` as falsy, so an exclusion id
of 0 excludes nothing. -/
def sum_hours_for_user_date (db : ReportDB) (user_id work_date : String)
    (exclude_report_id : Option Int) : Int :=
  match exclude_report_id with
  | some e =>
    if e ≠ 0 then
      ((db.reports.filter (fun r => matchesUserDate user_id work_date r && r.id != e)).map
        Report.hours).sum
    else
      ((db.reports.filter (matchesUserDate user_id work_date)).map Report.hours).sum
  | none =>
    ((db.reports.filter (matchesUserDate user_id work_date)).map Report.hours).sum

/-- `update_report_hours` (bot_polya_whatsapp.py:395-399): sets `hours` on
the row with the given id owned by the given user; returns whether a row was
hit (`rowcount > 0`). -/
def update_report_hours (db : ReportDB) (report_id : Int) (user_id : String)
    (new_hours : Int) : ReportDB × Bool :=
  let hit := db.reports.any (fun r => r.id == report_id && r.user_id == user_id)
  ({ db with
      reports := db.reports.map (fun r =>
        if r.id == report_id && r.user_id == user_id then { r with hours := new_hours }
        else r) },
   hit)

/-- The `work` sub-dict accumulated by the work-logging flow inside
`state["data"]`; an absent key is an absent `Option` field (an absent `work`
dict is the all-`none` record, matching `state["data"].get("work", {})`). -/
structure WorkFields where
  grp : Option String
  activity : Option String
  loc_grp : Option String
  location : Option String
  work_date : Option String
deriving DecidableEq, Inhabited

/-- The fields of `state["data"]` that the modelled handlers read or write. -/
structure PolyaData where
  work : WorkFields
  edit_id : Option Int
  edit_date : Option String
deriving DecidableEq, Inhabited

/-- The empty `data` dict `{}`. -/
def emptyPolyaData : PolyaData :=
  { work := { grp := none, activity := none, loc_grp := none, location := none,
              work_date := none },
    edit_id := none, edit_date := none }

/-- One user's conversation state as the callback/text handlers see it. -/
structure PolyaState where
  state : Option String
  data : PolyaData
deriving DecidableEq, Inhabited

/-- The state written by `clear_state`: `{"state": None, "data": {}}`. -/
def clearedState : PolyaState := { state := none, data := emptyPolyaData }

/-- `all(k in work_data for k in ("grp","activity","loc_grp","location","work_date"))`
(bot_polya_whatsapp.py:1285). -/
def workComplete (wf : WorkFields) : Bool :=
  wf.grp.isSome && wf.activity.isSome && wf.loc_grp.isSome && wf.location.isSome
    && wf.work_date.isSome

/-- A row of the `activities` or `locations` reference table. -/
structure RefRow where
  id : Int
  name : String
  grp : String
deriving DecidableEq, Inhabited

/-- A reference table plus its AUTOINCREMENT counter. -/
structure RefTable where
  rows : List RefRow
  next_id : Int
deriving DecidableEq

/-- `get_activity_name` (bot_polya_whatsapp.py:272-280): `(name, grp)` of the
activity with the given id, or `None`. -/
def get_activity_name (acts : List RefRow) (act_id : Int) : Option (String × String) :=
  match acts.find? (fun a => a.id == act_id) with
  | some a => some (a.name, a.grp)
  | none => none

/-- `get_location_name` (bot_polya_whatsapp.py:314-322): same lookup on the
`locations` table. -/
def get_location_name (locs : List RefRow) (loc_id : Int) : Option (String × String) :=
  match locs.find? (fun a => a.id == loc_id) with
  | some a => some (a.name, a.grp)
  | none => none

/-- Worker for Python's `s.split(sep, maxsplit)`: `acc` holds the current
token reversed; once `maxsplit` separators have been consumed the rest of
the string is one final token. -/
def pySplitMaxAux (sep : Char) : Nat → List Char → List Char → List String
  | _, acc, [] => [String.mk acc.reverse]
  | 0, acc, rest => [String.mk (acc.reverse ++ rest)]
  | n + 1, acc, c :: cs =>
    if c = sep then String.mk acc.reverse :: pySplitMaxAux sep n [] cs
    else pySplitMaxAux sep (n + 1) (c :: acc) cs

/-- Python `s.split(sep, maxsplit)` for a one-character separator. -/
def pySplitMax (s : String) (sep : Char) (maxsplit : Nat) : List String :=
  pySplitMaxAux sep maxsplit [] s.toList

/-- Value of a list of decimal digit characters. -/
def digitsVal (cs : List Char) : Nat :=
  cs.foldl (fun n c => 10 * n + (c.toNat - 48)) 0

/-- Python `str.strip()` with no argument (ASCII-whitespace model): drop
leading and trailing whitespace. -/
def pyStrip (s : String) : String :=
  String.mk (((s.toList.dropWhile Char.isWhitespace).reverse.dropWhile
    Char.isWhitespace).reverse)

/-- Python `int(s)` on a string (ASCII decimal model): strip whitespace,
allow one optional sign, then require a nonempty run of digits; anything
else raises `ValueError`, modelled as `none`. -/
def pyIntParse (s : String) : Option Int :=
  let cs := (pyStrip s).toList
  let signDigits : Int × List Char :=
    match cs with
    | '-' :: rest => (-1, rest)
    | '+' :: rest => (1, rest)
    | _ => (1, cs)
  if signDigits.2 ≠ [] ∧ signDigits.2.all Char.isDigit then
    some (signDigits.1 * (digitsVal signDigits.2 : Int))
  else none

/-- The shared `try` prologue of the `work:act:` and `work:loc:` callback
branches (bot_polya_whatsapp.py:1144-1146 and 1216-1218):
`_, _, kind, id_str = data.split(":", 3); item_id = int(id_str)`; any
unpacking or parsing failure is the `except` case, modelled as `none`. -/
def parseWorkItemCb (data : String) : Option (String × Int) :=
  match pySplitMax data ':' 3 with
  | [_, _, kind, idStr] =>
    match pyIntParse idStr with
    | some i => some (kind, i)
    | none => none
  | _ => none

/-- An outbound effect of a handler.  `sendDatePrompt` stands for the
date-selection buttons of bot_polya_whatsapp.py:1238-1246, whose titles and
callback payloads are derived from the current wall-clock date;
`sendStatsToday`/`sendStatsWeek` stand for the aggregate statistics replies
of `cmd_today`/`cmd_my`, whose text is derived from time-ranged SQL rollups.
No claim depends on the elided time-dependent content.  `pyException`
records an exception escaping the handler. -/
inductive BotAction where
  | sendText (text : String)
  | sendButtons (text : String) (buttons : List Button)
  | sendDatePrompt
  | sendStatsToday
  | sendStatsWeek
  | pyException (desc : String)
deriving DecidableEq

/-- The `users` table: user id → `full_name` column (nullable). -/
abbrev UsersTable := List (String × Option String)

/-- `get_user` (bot_polya_whatsapp.py:246-256) restricted to the fields the
modelled handlers read: `some full_name?` when the row exists, else `none`. -/
def get_user (users : UsersTable) (uid : String) : Option (Option String) :=
  (users.find? (fun p => p.1 == uid)).map Prod.snd

/-- The display name of `show_main_menu`:
`(u or {}).get("full_name") or "—"`. -/
def displayNameOf (users : UsersTable) (uid : String) : String :=
  match get_user users uid with
  | some (some n) => if n = "" then "—" else n
  | _ => "—"

/-- The three fixed buttons of the main menu (bot_polya_whatsapp.py:737-741). -/
def mainMenuButtons : List Button :=
  [ { title := "🚜 Работа", callback_data := "menu:work" },
    { title := "📊 Статистика", callback_data := "menu:stats" },
    { title := "Ещё...", callback_data := "menu:more" } ]

/-- `show_main_menu` (bot_polya_whatsapp.py:727-744). -/
def show_main_menu (users : UsersTable) (uid : String) : BotAction :=
  .sendButtons ("👤 *" ++ displayNameOf users uid ++ "*\n\nВыберите действие:")
    mainMenuButtons

/-- The message of both malformed-callback `except` branches. -/
def expiredCbMsg : String := "❌ Команда устарела или повреждена. Откройте меню заново."

/-- `handle_callback`, branch `work:act:` (bot_polya_whatsapp.py:1142-1172):
resolve the activity id against the reference table; a malformed callback
gets the "expired" message with the state left untouched, an unknown id gets
"not found" and a cleared state, and a hit advances the flow to
`pick_loc_group` with the two location-group buttons. -/
def handle_work_act (acts : List RefRow) (st : PolyaState) (data : String) :
    PolyaState × List BotAction :=
  match parseWorkItemCb data with
  | none => (st, [.sendText expiredCbMsg])
  | some (_kind, act_id) =>
    match get_activity_name acts act_id with
    | none => (clearedState, [.sendText "❌ Вид работы не найден. Начните заново."])
    | some ng =>
      let wf := st.data.work
      let wf' := { wf with grp := some ng.2, activity := some ng.1 }
      ({ state := some "pick_loc_group", data := { st.data with work := wf' } },
       [.sendButtons "Выберите *локацию*:"
          [ { title := "Поля", callback_data := "work:locgrp:fields" },
            { title := "Склад", callback_data := "work:locgrp:ware" },
            { title := "🔙 Назад", callback_data := "menu:work" } ]])

/-- `handle_callback`, branch `work:loc:` (bot_polya_whatsapp.py:1214-1246):
same shape as `work:act:` over the `locations` table; a hit stores the
location, advances to `pick_date` and sends the date buttons. -/
def handle_work_loc (locs : List RefRow) (st : PolyaState) (data : String) :
    PolyaState × List BotAction :=
  match parseWorkItemCb data with
  | none => (st, [.sendText expiredCbMsg])
  | some (_lg, loc_id) =>
    match get_location_name locs loc_id with
    | none => (clearedState, [.sendText "❌ Локация не найдена. Начните заново."])
    | some ng =>
      let wf := st.data.work
      let wf' := { wf with loc_grp := some ng.2, location := some ng.1 }
      ({ state := some "pick_date", data := { st.data with work := wf' } },
       [.sendDatePrompt])

/-- The over-limit message of the `work:hours:` branch
(bot_polya_whatsapp.py:1294-1300), reporting the existing sum, the attempted
hours and the remaining allowance `24 - already`. -/
def hoursLimitAddMsg (already hours : Int) : String :=
  "❗ *Превышен лимит часов*\n\nСейчас учтено: *" ++ toString already
    ++ "* ч\nПопытка добавить: *" ++ toString hours
    ++ "* ч\nМаксимум в сутки: *24* ч\n\nВы можете добавить не более *"
    ++ toString (24 - already) ++ "* ч."

/-- The confirmation message after a successful save
(bot_polya_whatsapp.py:1316-1323). -/
def savedMsg (wd loc act : String) (hours : Int) (rid : Int) : String :=
  "✅ *Сохранено*\n\nДата: *" ++ wd ++ "*\nМесто: *" ++ loc ++ "*\nРабота: *" ++ act
    ++ "*\nЧасы: *" ++ toString hours ++ "*\nID записи: `#" ++ toString rid ++ "`"

/-- `handle_callback`, branch `work:hours:` (bot_polya_whatsapp.py:1275-1326)
after the hour value has been parsed: check the work data is complete, sum
the day's existing hours, reject over-limit submissions without touching
storage, otherwise insert the report, clear the state and confirm.  When
`get_user` returns `None` the `u.get(...)` call raises; the exception leaves
both storage and state unchanged. -/
def handle_work_hours (db : ReportDB) (users : UsersTable) (uid : String)
    (st : PolyaState) (hours : Int) : ReportDB × PolyaState × List BotAction :=
  let wf := st.data.work
  if workComplete wf then
    let wd := wf.work_date.getD ""
    let already := sum_hours_for_user_date db uid wd none
    if already + hours > 24 then
      (db, st, [.sendText (hoursLimitAddMsg already hours)])
    else
      match get_user users uid with
      | none => (db, st, [.pyException "AttributeError"])
      | some fn =>
        let ins := insert_report db uid (fn.getD "") (wf.location.getD "")
          (wf.loc_grp.getD "") (wf.activity.getD "") (wf.grp.getD "") wd hours
        (ins.1, clearedState,
         [.sendText (savedMsg wd (wf.location.getD "") (wf.activity.getD "") hours ins.2),
          show_main_menu users uid])
  else
    (db, clearedState, [.sendText "Что-то пошло не так. Начните заново."])

/-- The over-limit message of the `edit:h:` branch
(bot_polya_whatsapp.py:1393-1399). -/
def hoursLimitSetMsg (already new_h : Int) : String :=
  "❗ *Превышен лимит часов*\n\nСейчас учтено (без этой записи): *" ++ toString already
    ++ "* ч\nПопытка установить: *" ++ toString new_h
    ++ "* ч\nМаксимум в сутки: *24* ч\n\nВы можете установить не более *"
    ++ toString (24 - already) ++ "* ч."

/-- Outcome of the `edit:h:` branch.  `updated` covers the successful path:
the row is updated, the state cleared and a confirmation plus a re-rendered
record listing sent (the listing is built from a `created_at >= now-24h`
query, elided as time-dependent). -/
inductive EditOutcome where
  | staleSession
  | limitExceeded (msg : String)
  | updated
  | updateFailed
deriving DecidableEq

/-- `handle_callback`, branch `edit:h:` (bot_polya_whatsapp.py:1374-1416)
after the new hour value has been parsed: recover the edited report id from
the session (`int(None)` raises → stale-session message), sum the day's
other hours with `exclude_report_id=rid`, reject over-limit edits without
touching storage, otherwise update the row.  A `None` `edit_date` reaches
SQL as `work_date = NULL`, which matches no rows, so the sum is 0. -/
def handle_edit_hours (db : ReportDB) (uid : String) (st : PolyaState) (new_h : Int) :
    ReportDB × EditOutcome :=
  match st.data.edit_id with
  | none => (db, .staleSession)
  | some rid =>
    let already :=
      match st.data.edit_date with
      | some wd => sum_hours_for_user_date db uid wd (some rid)
      | none => 0
    if already + new_h > 24 then
      (db, .limitExceeded (hoursLimitSetMsg already new_h))
    else
      let upd := update_report_hours db rid uid new_h
      if upd.2 then (upd.1, .updated) else (upd.1, .updateFailed)

/-- Default reference data (bot_polya_whatsapp.py:91-109). -/
def DEFAULT_FIELDS : List String :=
  ["Северное", "Фазенда", "5 га", "58 га", "Фермерское", "Сад",
   "Чеки №1", "Чеки №2", "Чеки №3", "Рогачи (б)", "Рогачи(М)",
   "Владимирова Аренда", "МТФ"]

/-- Default machine-work activities. -/
def DEFAULT_TECH : List String :=
  ["пахота", "чизелевание", "дискование", "культивация сплошная",
   "культивация междурядная", "опрыскивание", "комбайн уборка", "сев", "барнование"]

/-- Default manual-work activities. -/
def DEFAULT_HAND : List String :=
  ["прополка", "сбор", "полив", "монтаж", "ремонт"]

/-- Group tags (bot_polya_whatsapp.py:106-109). -/
def GROUP_TECH : String := "техника"

/-- Manual-work group tag. -/
def GROUP_HAND : String := "ручная"

/-- Field-locations group tag. -/
def GROUP_FIELDS : String := "поля"

/-- Warehouse group tag. -/
def GROUP_WARE : String := "склад"

/-- The relational state the modelled text handler touches: the `users`
table and the two reference tables.  The `reports` table is carried
separately where needed. -/
structure PolyaEnv where
  users : UsersTable
  activities : RefTable
  locations : RefTable
deriving DecidableEq

/-- `INSERT OR IGNORE INTO ...(name, grp) VALUES (?, ?)`: a duplicate `name`
(UNIQUE column) leaves the table unchanged. -/
def insert_or_ignore (tbl : RefTable) (name grp : String) : RefTable :=
  if tbl.rows.any (fun a => a.name == name) then tbl
  else { rows := tbl.rows ++ [{ id := tbl.next_id, name := name, grp := grp }],
         next_id := tbl.next_id + 1 }

/-- `add_activity`/`add_location` (bot_polya_whatsapp.py:282-292, 324-334):
strip the name, refuse an empty one, insert, and report a UNIQUE violation
(`IntegrityError`) as `false`. -/
def add_ref_row (tbl : RefTable) (grp name : String) : RefTable × Bool :=
  let name := pyStrip name
  if name = "" then (tbl, false)
  else if tbl.rows.any (fun a => a.name == name) then (tbl, false)
  else ({ rows := tbl.rows ++ [{ id := tbl.next_id, name := name, grp := grp }],
          next_id := tbl.next_id + 1 }, true)

/-- `remove_activity`/`remove_location` (bot_polya_whatsapp.py:294-298,
336-340): delete by exact name, report `rowcount > 0`. -/
def remove_ref_row (tbl : RefTable) (name : String) : RefTable × Bool :=
  let hit := tbl.rows.any (fun a => a.name == name)
  ({ tbl with rows := tbl.rows.filter (fun a => a.name != name) }, hit)

/-- `upsert_user` (bot_polya_whatsapp.py:234-244): update the `full_name`
column of an existing row, else insert.  Note that passing `None` overwrites
an existing name with NULL. -/
def upsert_user (users : UsersTable) (uid : String) (full_name : Option String) :
    UsersTable :=
  if users.any (fun p => p.1 == uid) then
    users.map (fun p => if p.1 == uid then (p.1, full_name) else p)
  else users ++ [(uid, full_name)]

/-- `init_db` (bot_polya_whatsapp.py:141-232) restricted to its data effect
on the modelled tables: seed the default locations (plus `Склад`) and
activities with `INSERT OR IGNORE`.  The `CREATE TABLE IF NOT EXISTS`
statements and the `grp`-column migration branches concern schema evolution
and never fire on the fixed-schema model. -/
def init_db (env : PolyaEnv) : PolyaEnv :=
  let locs := DEFAULT_FIELDS.foldl (fun t n => insert_or_ignore t n GROUP_FIELDS)
    env.locations
  let locs := insert_or_ignore locs "Склад" GROUP_WARE
  let acts := DEFAULT_TECH.foldl (fun t n => insert_or_ignore t n GROUP_TECH)
    env.activities
  let acts := DEFAULT_HAND.foldl (fun t n => insert_or_ignore t n GROUP_HAND) acts
  { env with locations := locs, activities := acts }

/-- Python `str.lower()` restricted to the alphabets this bot handles:
ASCII `A`-`Z` and Cyrillic `А`-`Я`/`Ё`. -/
def pyLowerChar (c : Char) : Char :=
  if 'A' ≤ c ∧ c ≤ 'Z' then Char.ofNat (c.toNat + 32)
  else if 0x410 ≤ c.toNat ∧ c.toNat ≤ 0x42F then Char.ofNat (c.toNat + 0x20)
  else if c.toNat = 0x401 then Char.ofNat 0x451
  else c

/-- Python `s.lower()`. -/
def pyLower (s : String) : String := String.mk (s.toList.map pyLowerChar)

/-- The registration prompt of `cmd_start` (bot_polya_whatsapp.py:843-846). -/
def namePromptStart : String :=
  "👋 Для начала введите *Фамилию Имя* (например: *Иванов Иван*)."

/-- `cmd_start` (bot_polya_whatsapp.py:834-849): run `init_db`, upsert the
user with `full_name=None` — which nulls out any previously registered name —
read the row back, and since the name is now always NULL, set the
`waiting_name` state and send the registration prompt. -/
def cmd_start (env : PolyaEnv) (uid : String) (st : PolyaState) :
    PolyaEnv × PolyaState × List BotAction :=
  let env := init_db env
  let env := { env with users := upsert_user env.users uid none }
  (env, { st with state := some "waiting_name" }, [.sendText namePromptStart])

/-- `handle_text` (bot_polya_whatsapp.py:1468-1540): the free-text FSM
dispatcher.  Four command words (`start`, `menu`, `today`, `my` and their
Russian forms) are recognized before any state-specific handling; every
other text is dispatched on the current state (`waiting_name` registration,
the four `adm_wait_*` admin inputs), and by default the main menu (or
`cmd_start` for an unknown user) is shown. -/
def handle_text (env : PolyaEnv) (uid : String) (st : PolyaState) (text : String) :
    PolyaEnv × PolyaState × List BotAction :=
  let message_text := pyStrip text
  let normalized := pyLower message_text
  if normalized = "start" ∨ normalized = "старт" then cmd_start env uid st
  else if normalized = "menu" ∨ normalized = "меню" then
    (env, st, [show_main_menu env.users uid])
  else if normalized = "today" ∨ normalized = "сегодня" then
    (env, st, [.sendStatsToday])
  else if normalized = "my" ∨ normalized = "мои" then
    (env, st, [.sendStatsWeek])
  else
    match st.state with
    | some "waiting_name" =>
      if message_text.length < 3 ∨ ¬ message_text.toList.contains ' ' then
        (env, st, [.sendText "Введите Фамилию и Имя (через пробел). Пример: *Иванов Иван*"])
      else
        let old := get_user env.users uid
        let isNew : Bool :=
          match old with
          | none => true
          | some fn => pyStrip (fn.getD "") == ""
        let users' := upsert_user env.users uid (some message_text)
        ({ env with users := users' }, clearedState,
         [ .sendText (if isNew then "✅ Зарегистрировано как: *" ++ message_text ++ "*"
                      else "✏️ Имя изменено на: *" ++ message_text ++ "*"),
           show_main_menu users' uid ])
    | some "adm_wait_act_add" =>
      let res := add_ref_row env.activities GROUP_HAND message_text
      ({ env with activities := res.1 }, clearedState,
       [.sendText (if res.2 then "✅ Добавлено" else "⚠️ Уже существует")])
    | some "adm_wait_act_del" =>
      let res := remove_ref_row env.activities message_text
      ({ env with activities := res.1 }, clearedState,
       [.sendText (if res.2 then "✅ Удалено" else "❌ Не найдено")])
    | some "adm_wait_loc_add" =>
      let res := add_ref_row env.locations GROUP_FIELDS message_text
      ({ env with locations := res.1 }, clearedState,
       [.sendText (if res.2 then "✅ Добавлено" else "⚠️ Уже существует")])
    | some "adm_wait_loc_del" =>
      let res := remove_ref_row env.locations message_text
      ({ env with locations := res.1 }, clearedState,
       [.sendText (if res.2 then "✅ Удалено" else "❌ Не найдено")])
    | _ =>
      match get_user env.users uid with
      | some _ => (env, st, [show_main_menu env.users uid])
      | none => cmd_start env uid st

end Polya

namespace MenuH

/-- Modelled from the spec: the state store of `menu_handlers.py` lives in
`utils/state.py`, which is absent from the sources.  Per §4.1 of the spec it
maps a user to a current state plus a transient data mapping, `clear`
resets to the empty state, and `set(user_id, state)` updates the current
state; the enum member `States.MAIN_MENU` is represented by the string
"MAIN_MENU".  This model carries one user's entry. -/
structure MHState where
  state : Option String
  data : List (String × String)
deriving DecidableEq

/-- Modelled from the spec: `States.MAIN_MENU` of the missing `utils/state.py`. -/
def MAIN_MENU : String := "MAIN_MENU"

/-- Modelled from the spec: `clear_state` of the missing `utils/state.py`
resets the user's entry to the empty/initial state. -/
def clear_state (_st : MHState) : MHState := { state := none, data := [] }

/-- The main-menu text of `handle_main_menu` (menu_handlers.py:264-282). -/
def mhMainMenuText : String :=
  "Добро пожаловать в TERRA Bot!\n\nОтправьте команду:\n1 - Работа\n2 - Часы\n3 - Помощь"

/-- `handle_main_menu` (menu_handlers.py:264-282): set the `MAIN_MENU` state
and send the menu text. -/
def handle_main_menu (st : MHState) : MHState × List String :=
  ({ st with state := some MAIN_MENU }, [mhMainMenuText])

/-- The help text of `handle_help` (menu_handlers.py:527-554). -/
def mhHelpText : String :=
  "❓ Справка по боту TERRA\n\n📱 Команды:\n• start / menu - Главное меню\n• help - Эта справка\n• cancel / отмена - Отменить текущее действие\n\n📋 Как пользоваться:\n1. Выберите \"Работа\" в главном меню\n2. Укажите тип работы\n3. Выберите смену\n4. Укажите количество часов\n5. Подтвердите сохранение\n\n💡 Используйте кнопки и списки для навигации!\n\nПо вопросам обращайтесь к администратору."

/-- `handle_help` (menu_handlers.py:527-554): send the help text, then show
the main menu. -/
def handle_help (st : MHState) : MHState × List String :=
  let p := handle_main_menu st
  (p.1, mhHelpText :: p.2)

/-- `handle_text_message` (menu_handlers.py:122-155): the global command
vocabulary is checked before any state-specific handling, so it pre-empts
every state; `cancel`-type words additionally clear the state before
returning to the main menu; any unrecognized text falls through to the main
menu as well. -/
def handle_text_message (st : MHState) (text : String) : MHState × List String :=
  let tl := Polya.pyLower text
  if tl = "start" ∨ tl = "старт" ∨ tl = "меню" ∨ tl = "menu" ∨ tl = "/start" then
    handle_main_menu st
  else if tl = "help" ∨ tl = "помощь" ∨ tl = "/help" then
    handle_help st
  else if tl = "cancel" ∨ tl = "отмена" ∨ tl = "стоп" ∨ tl = "stop" then
    let st := clear_state st
    let p := handle_main_menu st
    (p.1, "Действие отменено. Возвращаю в главное меню." :: p.2)
  else
    let p := handle_main_menu st
    (p.1, "Не понял команду. Отправляю главное меню..." :: p.2)

end MenuH

namespace Polya

/-- One hour submission reaching the `work:hours:` branch: the submitting
user, that user's conversation state, and the submitted hour value. -/
structure Submission where
  uid : String
  st : PolyaState
  hours : Int

/-- A sequence of hour submissions through the work-logging flow, applied to
the report store in order. -/
def run_work_flow (users : UsersTable) (db : ReportDB) (subs : List Submission) :
    ReportDB :=
  subs.foldl (fun d sub => (handle_work_hours d users sub.uid sub.st sub.hours).1) db

/-- Fixture: a one-row activities list. -/
def demoActs : List RefRow := [{ id := 1, name := "пахота", grp := GROUP_TECH }]

/-- Fixture: a one-row locations list. -/
def demoLocs : List RefRow := [{ id := 1, name := "Сад", grp := GROUP_FIELDS }]

/-- Fixture: a user mid-flow in `pick_activity` with a chosen work group. -/
def demoMidFlowState : PolyaState :=
  { state := some "pick_activity",
    data := { emptyPolyaData with
      work := { grp := some GROUP_TECH, activity := none, loc_grp := none,
                location := none, work_date := none } } }

/-- Fixture: a stored report of 5 hours. -/
def demoEditReport : Report :=
  { id := 1, user_id := "emp", reg_name := "Иванов Иван", location := "Сад",
    location_grp := GROUP_FIELDS, activity := "прополка", activity_grp := GROUP_HAND,
    work_date := "2025-06-01", hours := 5 }

/-- Fixture: a report store holding only `demoEditReport`. -/
def demoEditDB : ReportDB := { reports := [demoEditReport], next_id := 2 }

/-- Fixture: the session state of a user editing report 1. -/
def demoEditState : PolyaState :=
  { state := some "edit_hours",
    data := { emptyPolyaData with edit_id := some 1, edit_date := some "2025-06-01" } }

/-- Fixture: `demoEditDB` after the edit to 20 hours. -/
def demoEditDBAfter : ReportDB :=
  { reports := [{ demoEditReport with hours := 20 }], next_id := 2 }

/-- Fixture: complete work data for the 2025-06-01 work date. -/
def demoFullWork : WorkFields :=
  { grp := some GROUP_TECH, activity := some "пахота", loc_grp := some GROUP_FIELDS,
    location := some "Сад", work_date := some "2025-06-01" }

/-- Fixture: the `pick_hours` state carrying `demoFullWork`. -/
def demoWorkState : PolyaState :=
  { state := some "pick_hours", data := { emptyPolyaData with work := demoFullWork } }

/-- Fixture: a store already holding 20 hours for ("emp", 2025-06-01). -/
def demoDB20 : ReportDB :=
  { reports := [{ demoEditReport with hours := 20 }], next_id := 2 }

/-- Fixture: an environment whose activities table contains an activity
literally named "cancel". -/
def demoEnvCancel : PolyaEnv :=
  { users := [("u1", some "Иванов Иван")],
    activities := { rows := [{ id := 1, name := "cancel", grp := GROUP_HAND }],
                    next_id := 2 },
    locations := { rows := [], next_id := 1 } }

/-- Fixture: a user waiting in the admin delete-activity state. -/
def demoAdmDelState : PolyaState :=
  { state := some "adm_wait_act_del", data := emptyPolyaData }

/-- Fixture: a state store with one mid-flow entry. -/
def demoStore : StateStore Nat :=
  fun v => if v = "u1" then some { state := some "pick_hours", data := 7 } else none

end Polya

namespace Polya

theorem paginationNavButtons_cases (n : Nat) (key : String) (p tp : Nat) :
    paginationNavButtons n key p tp = []
      ∨ paginationNavButtons n key p tp = [navPrevButton key p]
      ∨ paginationNavButtons n key p tp = [navNextButton key p] := by
  unfold paginationNavButtons
  split
  · exact Or.inr (Or.inl rfl)
  · split
    · exact Or.inr (Or.inr rfl)
    · exact Or.inl rfl

theorem paginationBackButtons_cases (c : Nat) (back : Option String) :
    paginationBackButtons c back = []
      ∨ ∃ cb, back = some cb ∧ paginationBackButtons c back = [backButton cb] := by
  cases back with
  | none => exact Or.inl rfl
  | some cb =>
    by_cases h : c < 3
    · exact Or.inr ⟨cb, rfl, by simp [paginationBackButtons, h]⟩
    · exact Or.inl (by simp [paginationBackButtons, h])

theorem editNavButtons_cases (tr p : Nat) :
    editNavButtons tr p = []
      ∨ editNavButtons tr p
          = [{ title := "⬅️", callback_data := "nav:edit_records:" ++ toString (p - 1) }]
      ∨ editNavButtons tr p
          = [{ title := "➡️", callback_data := "nav:edit_records:" ++ toString (p + 1) }] := by
  unfold editNavButtons
  split
  · split
    · exact Or.inr (Or.inl rfl)
    · split
      · exact Or.inr (Or.inr rfl)
      · exact Or.inl rfl
  · exact Or.inl rfl

theorem drop_take_window {α : Type} (l : List α) (s : Nat) :
    (l.drop s).take (min (s + 2) l.length - s) = (l.drop s).take 2 := by
  rw [List.take_eq_take]
  simp only [List.length_drop]
  omega

theorem send_paginated_buttons_len_le {α : Type} (text : String) (items : List α)
    (mk : α → Button) (key : String) (page : Int) (back : Option String) :
    ((send_paginated_buttons text items mk key page back).buttons).length ≤ 3 := by
  by_cases hemp : items.isEmpty
  · simp [send_paginated_buttons, hemp, PageOut.buttons]
  · simp only [send_paginated_buttons, hemp, if_false, PageOut.buttons]
    simp [List.length_take]

theorem send_paginated_buttons_decomp {α : Type} (text : String) (items : List α)
    (mk : α → Button) (key : String) (page : Int) (back : Option String) :
    ∃ itemB navB backB : List Button,
      (send_paginated_buttons text items mk key page back).buttons
        = ((itemB ++ navB) ++ backB).take 3
      ∧ (∃ p : Nat,
          navB = [] ∨ navB = [navPrevButton key p] ∨ navB = [navNextButton key p])
      ∧ (backB = [] ∨ ∃ cb, back = some cb ∧ backB = [backButton cb]) := by
  by_cases hemp : items.isEmpty
  · refine ⟨[], [], [], ?_, ⟨0, Or.inl rfl⟩, Or.inl rfl⟩
    simp [send_paginated_buttons, hemp, PageOut.buttons]
  · simp only [send_paginated_buttons, hemp, if_false, PageOut.buttons]
    refine ⟨_, _, _, rfl, ⟨_, paginationNavButtons_cases _ key _ _⟩,
      paginationBackButtons_cases _ back⟩

theorem render_edit_records_page_len_le (records : List EditRecord) (epage : Int) :
    ((render_edit_records_page records epage).buttons).length ≤ 3 := by
  by_cases hemp : records.isEmpty
  · simp [render_edit_records_page, hemp, EditPageOut.buttons]
  · simp only [render_edit_records_page, hemp, if_false, EditPageOut.buttons]
    simp [List.length_take]

theorem arrow_filter_false (t cb : String) (h1 : (t == "⬅️") = false)
    (h2 : (t == "➡️") = false) :
    (fun b : Button => b.title == "⬅️" || b.title == "➡️") { title := t, callback_data := cb }
      = false := by
  simp [h1, h2]

theorem render_edit_records_page_one_arrow (records : List EditRecord) (epage : Int) :
    ((render_edit_records_page records epage).buttons.filter
      (fun b => b.title == "⬅️" || b.title == "➡️")).length ≤ 1 := by
  by_cases hemp : records.isEmpty
  · simp [render_edit_records_page, hemp, EditPageOut.buttons]
  · simp only [render_edit_records_page, hemp, if_false, EditPageOut.buttons]
    set p := (max 0 (min epage ((records.length : Int) - 1))).toNat with hp
    set r := records.getD p default with hr
    set base : List Button :=
      [ { title := "🖊 Править",
          callback_data := "edit:chg:" ++ toString r.rid ++ ":" ++ r.work_date },
        { title := "🗑 Удалить", callback_data := "edit:del:" ++ toString r.rid } ]
      with hbase
    set nav := editNavButtons records.length p with hnav
    have hfilterL :
        ∀ L : List Button,
          (L.filter (fun b => b.title == "⬅️" || b.title == "➡️")).length ≤ 1 →
          (((L.take 3).filter (fun b => b.title == "⬅️" || b.title == "➡️")).length ≤ 1) := by
      intro L hL
      exact le_trans (List.Sublist.length_le
        (List.Sublist.filter _ (List.take_sublist 3 L))) hL
    have hbasef : base.filter (fun b => b.title == "⬅️" || b.title == "➡️") = [] := rfl
    have hnavf : (nav.filter (fun b => b.title == "⬅️" || b.title == "➡️")).length ≤ 1 := by
      rcases editNavButtons_cases records.length p with h | h | h <;>
        simp [hnav, h, List.filter]
    apply hfilterL
    split
    · rw [List.filter_append, List.filter_append]
      simp only [hbasef]
      simpa using hnavf
    · rw [List.filter_append]
      simp only [hbasef]
      simpa using hnavf

end Polya

open Polya in
/-- C4: for every item list, page index and back-control option, the
pagination helper `send_paginated_buttons` sends at most 3 controls and its
button row decomposes into item buttons, at most one navigation arrow
(previous or next, never both) and an optional back control; likewise
`render_edit_records_page` sends at most 3 controls, among which at most one
is a navigation arrow. -/
theorem C4_controls_cap {α : Type} (text : String) (items : List α) (mk : α → Button)
    (key : String) (page : Int) (back : Option String)
    (records : List EditRecord) (epage : Int) :
    ((send_paginated_buttons text items mk key page back).buttons).length ≤ 3
    ∧ (∃ itemB navB backB : List Button,
        (send_paginated_buttons text items mk key page back).buttons
          = ((itemB ++ navB) ++ backB).take 3
        ∧ (∃ p : Nat,
            navB = [] ∨ navB = [navPrevButton key p] ∨ navB = [navNextButton key p])
        ∧ (backB = [] ∨ ∃ cb, back = some cb ∧ backB = [backButton cb]))
    ∧ ((render_edit_records_page records epage).buttons).length ≤ 3
    ∧ ((render_edit_records_page records epage).buttons.filter
        (fun b => b.title == "⬅️" || b.title == "➡️")).length ≤ 1 :=
  ⟨send_paginated_buttons_len_le text items mk key page back,
   send_paginated_buttons_decomp text items mk key page back,
   render_edit_records_page_len_le records epage,
   render_edit_records_page_one_arrow records epage⟩

open Polya in
/-- C5: pagination is deterministic — two calls of `send_paginated_buttons`
with identical item lists, page indices and back options display the same
item subset and produce the same control set. -/
theorem C5_pagination_deterministic {α : Type} (t₁ t₂ : String)
    (items₁ items₂ : List α) (mk₁ mk₂ : α → Button) (k₁ k₂ : String) (p₁ p₂ : Int)
    (b₁ b₂ : Option String) (ht : t₁ = t₂) (hi : items₁ = items₂) (hm : mk₁ = mk₂)
    (hk : k₁ = k₂) (hp : p₁ = p₂) (hb : b₁ = b₂) :
    (send_paginated_buttons t₁ items₁ mk₁ k₁ p₁ b₁).displayed
      = (send_paginated_buttons t₂ items₂ mk₂ k₂ p₂ b₂).displayed
    ∧ (send_paginated_buttons t₁ items₁ mk₁ k₁ p₁ b₁).buttons
      = (send_paginated_buttons t₂ items₂ mk₂ k₂ p₂ b₂).buttons := by
  subst ht hi hm hk hp hb
  exact ⟨rfl, rfl⟩

open Polya in
/-- C5 witness: the determinism theorem applied at a concrete call. -/
theorem C5_pagination_deterministic_witness :
    (send_paginated_buttons "Выберите" [1, 2, 3]
        (fun n => { title := toString n, callback_data := "cb" }) "acts" 0
        (some "menu:work")).displayed
      = (send_paginated_buttons "Выберите" [1, 2, 3]
          (fun n => { title := toString n, callback_data := "cb" }) "acts" 0
          (some "menu:work")).displayed
    ∧ (send_paginated_buttons "Выберите" [1, 2, 3]
        (fun n => { title := toString n, callback_data := "cb" }) "acts" 0
        (some "menu:work")).buttons
      = (send_paginated_buttons "Выберите" [1, 2, 3]
          (fun n => { title := toString n, callback_data := "cb" }) "acts" 0
          (some "menu:work")).buttons :=
  C5_pagination_deterministic "Выберите" "Выберите" [1, 2, 3] [1, 2, 3]
    (fun n => { title := toString n, callback_data := "cb" })
    (fun n => { title := toString n, callback_data := "cb" }) "acts" "acts" 0 0
    (some "menu:work") (some "menu:work") rfl rfl rfl rfl rfl rfl

open Polya in
/-- C9: for a nonempty item list the displayed subset is exactly
`items[p*2 : p*2+2]` with `p` the requested page clamped to
`[0, ceil(n/2) - 1]`; an empty item list short-circuits with the
list-is-empty message and no controls. -/
theorem C9_page_window {α : Type} (text : String) (items : List α) (mk : α → Button)
    (key : String) (page : Int) (back : Option String) :
    (items ≠ [] →
       (send_paginated_buttons text items mk key page back).displayed
         = (items.drop (clampedPage page items.length * 2)).take 2)
    ∧ send_paginated_buttons text ([] : List α) mk key page back
        = .emptyList (text ++ "\n\n_(Список пуст)_")
    ∧ (send_paginated_buttons text ([] : List α) mk key page back).buttons = [] := by
  refine ⟨?_, rfl, rfl⟩
  intro h
  have hemp : items.isEmpty = false := by simpa using h
  simp only [send_paginated_buttons, hemp, Bool.false_eq_true, if_false, PageOut.displayed]
  rw [drop_take_window]
  have h21 : items.length + 2 - 1 = items.length + 1 := by omega
  rw [h21]
  simp [clampedPage, totalPagesFor]

open Polya in
/-- C9 witness: the window theorem applied to a concrete 3-item list. -/
theorem C9_page_window_witness :
    (send_paginated_buttons "t" [10, 20, 30]
        (fun n => { title := toString n, callback_data := "cb" }) "hours" 1
        none).displayed
      = ([10, 20, 30].drop (clampedPage 1 3 * 2)).take 2 :=
  (C9_page_window "t" [10, 20, 30] (fun n => { title := toString n, callback_data := "cb" })
    "hours" 1 none).1 (by decide)

/-- C6 counterexample: the Blueprint POST endpoint (`webhook.py`,
`webhook_receive`) answers 400, not 200, on an empty payload — the claim
that the POST webhook endpoint always answers 200 fails on this code. -/
theorem C6_always_200_counterexample :
    (WebhookBp.webhook_receive (Except.ok (none : Option (List Unit)))
        (fun _ => Except.ok ())).1 = 400
    ∧ (WebhookBp.webhook_receive (Except.ok (none : Option (List Unit)))
        (fun _ => Except.ok ())).1 ≠ 200 := by
  exact ⟨rfl, by decide⟩

/-- C6 amended: `bot.py`'s POST handler answers 200 for every payload —
empty, unparseable, and raising processing included; `webhook.py`'s POST
endpoint answers 200 whenever the body parses to truthy data, with
per-message exceptions swallowed, but answers 400 on an empty payload and
500 on an exception escaping its outer `try`. -/
theorem C6_webhook_status_amended {μ : Type} (data : Option μ)
    (proc : μ → Except PyExc Unit) (msgs : List μ)
    (proc2 : μ → Except PyExc Unit) (e : PyExc) :
    (BotMain.webhook_handler data proc).1 = 200
    ∧ (WebhookBp.webhook_receive (Except.ok (some msgs)) proc2).1 = 200
    ∧ (WebhookBp.webhook_receive (Except.ok (none : Option (List μ))) proc2).1 = 400
    ∧ (WebhookBp.webhook_receive (Except.error e : Except PyExc (Option (List μ)))
        proc2).1 = 500 := by
  refine ⟨?_, rfl, rfl, rfl⟩
  cases data with
  | none => rfl
  | some d =>
    unfold BotMain.webhook_handler
    cases hd : proc d <;> simp [hd]

/-- C7 counterexample: `bot.py`'s GET verification endpoint answers 400, not
403, when the query parameters are missing — the claim that every incorrect
combination yields 403 fails on this code. -/
theorem C7_verify_403_counterexample :
    (BotMain.webhook_verify "secret" none none none).2 = 400
    ∧ (BotMain.webhook_verify "secret" none none none).2 ≠ 403 := by
  exact ⟨rfl, by decide⟩

/-- C7 amended: `webhook.py`'s GET endpoint echoes the challenge with 200
exactly when `hub.mode = "subscribe"` and the token matches, else 403;
`bot.py`'s GET endpoint does the same only when both parameters are present
and nonempty, answering 400 — not 403 — when either is missing or empty. -/
theorem C7_verify_amended (vt : String) (mode token challenge : Option String) :
    (mode = some "subscribe" ∧ token = some vt →
       WebhookBp.webhook_verify vt mode token challenge = (challenge, 200))
    ∧ (¬ (mode = some "subscribe" ∧ token = some vt) →
       WebhookBp.webhook_verify vt mode token challenge = (some "Forbidden", 403))
    ∧ (vt ≠ "" → mode = some "subscribe" → token = some vt →
       (BotMain.webhook_verify vt mode token challenge).2 = 200)
    ∧ (BotMain.pyTruthyStr mode = true → BotMain.pyTruthyStr token = true →
       ¬ (mode = some "subscribe" ∧ token = some vt) →
       (BotMain.webhook_verify vt mode token challenge).2 = 403)
    ∧ (¬ (BotMain.pyTruthyStr mode = true ∧ BotMain.pyTruthyStr token = true) →
       (BotMain.webhook_verify vt mode token challenge).2 = 400) := by
  refine ⟨?_, ?_, ?_, ?_, ?_⟩
  · rintro ⟨h1, h2⟩
    simp [WebhookBp.webhook_verify, h1, h2]
  · intro h
    have hb : (mode == some "subscribe" && token == some vt) = false := by
      cases hm : mode == some "subscribe" <;> cases ht : token == some vt <;>
        simp_all [beq_iff_eq]
    simp [WebhookBp.webhook_verify, hb]
  · intro hvt h1 h2
    subst h1
    subst h2
    simp [BotMain.webhook_verify, BotMain.pyTruthyStr, hvt]
  · intro h1 h2 h
    have hb : (mode == some "subscribe" && token == some vt) = false := by
      cases hm : mode == some "subscribe" <;> cases ht : token == some vt <;>
        simp_all [beq_iff_eq]
    simp [BotMain.webhook_verify, h1, h2, hb]
  · intro h
    have hb : (BotMain.pyTruthyStr mode && BotMain.pyTruthyStr token) = false := by
      cases hm : BotMain.pyTruthyStr mode <;> cases ht : BotMain.pyTruthyStr token <;>
        simp_all
    simp [BotMain.webhook_verify, hb]

/-- C7 witness: the amended theorem applied at a correct pair and at a
missing-parameter query. -/
theorem C7_verify_amended_witness :
    WebhookBp.webhook_verify "s" (some "subscribe") (some "s") (some "c")
      = (some "c", 200)
    ∧ (BotMain.webhook_verify "s" (some "subscribe") (some "s") (some "c")).2 = 200
    ∧ (BotMain.webhook_verify "s" none none none).2 = 400 :=
  ⟨(C7_verify_amended "s" (some "subscribe") (some "s") (some "c")).1 ⟨rfl, rfl⟩,
   (C7_verify_amended "s" (some "subscribe") (some "s") (some "c")).2.2.1
     (by decide) rfl rfl,
   (C7_verify_amended "s" none none none).2.2.2.2 (by decide)⟩

open Polya in
/-- C10: `set_state` without a data argument changes only the `state` field
of that user's entry, leaves the stored `data` mapping unchanged and touches
no other user's entry; the transient data is replaced only when an explicit
mapping is passed. -/
theorem C10_set_state_frame {δ : Type} (d0 : δ) (m : StateStore δ) (uid : String)
    (stv : Option String) (s : UserState δ) (h : m uid = some s) :
    set_state d0 m uid stv none uid = some { s with state := stv }
    ∧ (∀ v, v ≠ uid → set_state d0 m uid stv none v = m v)
    ∧ (∀ dd, set_state d0 m uid stv (some dd) uid = some { state := stv, data := dd }) := by
  refine ⟨?_, ?_, ?_⟩
  · simp [set_state, get_state, h]
  · intro v hv
    simp [set_state, get_state, h, hv]
  · intro dd
    simp [set_state, get_state, h]

open Polya in
/-- C10 witness: the frame theorem applied to a concrete two-user store. -/
theorem C10_set_state_frame_witness :
    set_state 0 demoStore "u1" (some "MAIN") none "u1"
      = some { state := some "MAIN", data := 7 }
    ∧ set_state 0 demoStore "u1" (some "MAIN") none "u2" = demoStore "u2"
    ∧ set_state 0 demoStore "u1" (some "MAIN") (some 9) "u1"
      = some { state := some "MAIN", data := 9 } :=
  ⟨(C10_set_state_frame 0 demoStore "u1" (some "MAIN")
      { state := some "pick_hours", data := 7 } (by decide)).1,
   (C10_set_state_frame 0 demoStore "u1" (some "MAIN")
      { state := some "pick_hours", data := 7 } (by decide)).2.1 "u2" (by decide),
   (C10_set_state_frame 0 demoStore "u1" (some "MAIN")
      { state := some "pick_hours", data := 7 } (by decide)).2.2 9⟩

open Polya in
/-- C2: the edit-time cap check excludes the edited report's own hours —
`sum_hours_for_user_date` with a nonzero exclusion id sums exactly the rows
with a different id (report ids are AUTOINCREMENT-assigned and never 0) —
and the concrete scenario holds: a report at 5 hours with no other same-day
reports can be edited to 20 hours, updating the row. -/
theorem C2_edit_excludes_own (db : ReportDB) (uid wd : String) (rid : Int)
    (hids : ∀ r ∈ db.reports, r.id ≠ 0) :
    sum_hours_for_user_date db uid wd (some rid)
      = ((db.reports.filter (fun r => matchesUserDate uid wd r && r.id != rid)).map
          Report.hours).sum
    ∧ handle_edit_hours demoEditDB "emp" demoEditState 20
        = (demoEditDBAfter, .updated) := by
  constructor
  · by_cases h0 : rid = 0
    · subst h0
      have heq : db.reports.filter (fun r => matchesUserDate uid wd r && r.id != (0 : Int))
          = db.reports.filter (matchesUserDate uid wd) := by
        apply List.filter_congr
        intro r hr
        have h1 : (r.id != (0 : Int)) = true := by simpa using hids r hr
        simp [h1]
      simp [sum_hours_for_user_date, heq]
    · simp [sum_hours_for_user_date, h0]
  · decide

open Polya in
/-- C2 witness: the exclusion equation applied at the concrete one-report
store. -/
theorem C2_edit_excludes_own_witness :
    sum_hours_for_user_date demoEditDB "emp" "2025-06-01" (some 1)
      = ((demoEditDB.reports.filter
          (fun r => matchesUserDate "emp" "2025-06-01" r && r.id != 1)).map
          Report.hours).sum :=
  (C2_edit_excludes_own demoEditDB "emp" "2025-06-01" 1 (by decide)).1

open Polya in
/-- C3 counterexample: a malformed composite id (`work:act:tech:xyz`) makes
the handler send the "expired" message but leave the user's state untouched —
the claim that it also clears the conversation state fails on this code. -/
theorem C3_stale_id_counterexample :
    (handle_work_act demoActs demoMidFlowState "work:act:tech:xyz").1 = demoMidFlowState
    ∧ demoMidFlowState ≠ clearedState
    ∧ (handle_work_act demoActs demoMidFlowState "work:act:tech:xyz").2
        = [.sendText expiredCbMsg] := by
  refine ⟨by decide, by decide, by decide⟩

open Polya in
/-- C3 amended: neither branch can raise (both are total); a parseable id
absent from the reference table yields the not-found message and a cleared
state, while a malformed composite id yields the expired-command message
with the state left unchanged. -/
theorem C3_stale_id_amended (acts locs : List RefRow) (st : PolyaState) (data : String) :
    (parseWorkItemCb data = none →
       handle_work_act acts st data = (st, [.sendText expiredCbMsg])
       ∧ handle_work_loc locs st data = (st, [.sendText expiredCbMsg]))
    ∧ (∀ kind i, parseWorkItemCb data = some (kind, i) →
        (get_activity_name acts i = none →
          handle_work_act acts st data
            = (clearedState, [.sendText "❌ Вид работы не найден. Начните заново."]))
        ∧ (get_location_name locs i = none →
          handle_work_loc locs st data
            = (clearedState, [.sendText "❌ Локация не найдена. Начните заново."]))) := by
  constructor
  · intro h
    constructor
    · simp [handle_work_act, h]
    · simp [handle_work_loc, h]
  · intro kind i h
    constructor
    · intro h2
      simp [handle_work_act, h, h2]
    · intro h2
      simp [handle_work_loc, h, h2]

open Polya in
/-- C3 witness: the amended theorem applied to ids that parse but are
missing from the reference tables. -/
theorem C3_stale_id_amended_witness :
    handle_work_act demoActs demoMidFlowState "work:act:tech:99"
      = (clearedState, [.sendText "❌ Вид работы не найден. Начните заново."])
    ∧ handle_work_loc demoLocs demoMidFlowState "work:loc:fields:99"
      = (clearedState, [.sendText "❌ Локация не найдена. Начните заново."]) :=
  ⟨((C3_stale_id_amended demoActs demoLocs demoMidFlowState "work:act:tech:99").2
      "tech" 99 (by decide)).1 (by decide),
   ((C3_stale_id_amended demoActs demoLocs demoMidFlowState "work:loc:fields:99").2
      "fields" 99 (by decide)).2 (by decide)⟩

open Polya in
/-- C8 counterexample: in bot_polya_whatsapp.py the word "cancel" is not a
global command — sent from the `adm_wait_act_del` state it is taken as an
activity name to delete: the reference table is mutated, the reply is
"✅ Удалено", and no main menu is shown. -/
theorem C8_global_commands_counterexample :
    (handle_text demoEnvCancel "u1" demoAdmDelState "cancel").2.2
      = [.sendText "✅ Удалено"]
    ∧ (handle_text demoEnvCancel "u1" demoAdmDelState "cancel").1.activities.rows = []
    ∧ demoEnvCancel.activities.rows ≠ []
    ∧ (∀ a ∈ (handle_text demoEnvCancel "u1" demoAdmDelState "cancel").2.2,
        a ≠ show_main_menu demoEnvCancel.users "u1") := by
  refine ⟨by decide, by decide, by decide, by decide⟩

/-- C8 amended: in menu_handlers.py the global commands pre-empt every state
("menu" returns the user to MAIN_MENU, "cancel" additionally clears the
transient data); in bot_polya_whatsapp.py only start/menu/today/my are
global — "menu" pre-empts the state-specific handling and shows the main
menu from any state, but leaves the stored state value untouched, and
"cancel" is not a global command there at all. -/
theorem C8_global_commands_amended (env : Polya.PolyaEnv) (uid : String)
    (st : Polya.PolyaState) (stM : MenuH.MHState) :
    Polya.handle_text env uid st "menu"
      = (env, st, [Polya.show_main_menu env.users uid])
    ∧ Polya.handle_text env uid st "меню"
      = (env, st, [Polya.show_main_menu env.users uid])
    ∧ MenuH.handle_text_message stM "menu"
      = ({ stM with state := some MenuH.MAIN_MENU }, [MenuH.mhMainMenuText])
    ∧ MenuH.handle_text_message stM "cancel"
      = ({ state := some MenuH.MAIN_MENU, data := [] },
         ["Действие отменено. Возвращаю в главное меню.", MenuH.mhMainMenuText]) := by
  refine ⟨rfl, rfl, rfl, rfl⟩

namespace Polya

theorem sum_hours_insert (db : ReportDB) (uid' rn loc lg act ag wd' : String) (h : Int)
    (uid wd : String) :
    sum_hours_for_user_date (insert_report db uid' rn loc lg act ag wd' h).1 uid wd none
      = sum_hours_for_user_date db uid wd none
        + (if uid' = uid ∧ wd' = wd then h else 0) := by
  simp only [sum_hours_for_user_date, insert_report, List.filter_append, List.map_append,
    List.sum_append]
  by_cases h1 : uid' = uid <;> by_cases h2 : wd' = wd <;>
    simp [matchesUserDate, h1, h2]

theorem handle_work_hours_db (db : ReportDB) (users : UsersTable) (uid' : String)
    (st : PolyaState) (h : Int) :
    (handle_work_hours db users uid' st h).1 = db
    ∨ ∃ fn, get_user users uid' = some fn
        ∧ sum_hours_for_user_date db uid' (st.data.work.work_date.getD "") none + h ≤ 24
        ∧ (handle_work_hours db users uid' st h).1
            = (insert_report db uid' (fn.getD "") (st.data.work.location.getD "")
                (st.data.work.loc_grp.getD "") (st.data.work.activity.getD "")
                (st.data.work.grp.getD "") (st.data.work.work_date.getD "") h).1 := by
  by_cases hc : workComplete st.data.work = true
  · by_cases hover :
      sum_hours_for_user_date db uid' (st.data.work.work_date.getD "") none + h > 24
    · left
      simp [handle_work_hours, hc, hover]
    · cases hu : get_user users uid' with
      | none =>
        left
        simp [handle_work_hours, hc, hover, hu]
      | some fn =>
        right
        exact ⟨fn, rfl, by omega, by simp [handle_work_hours, hc, hover, hu]⟩
  · left
    simp [handle_work_hours, hc]

theorem handle_work_hours_cap (db : ReportDB) (users : UsersTable) (uid' : String)
    (st : PolyaState) (h : Int) (uid wd : String)
    (hle : sum_hours_for_user_date db uid wd none ≤ 24) :
    sum_hours_for_user_date (handle_work_hours db users uid' st h).1 uid wd none ≤ 24 := by
  rcases handle_work_hours_db db users uid' st h with heq | ⟨fn, _, hsum, heq⟩
  · rw [heq]
    exact hle
  · rw [heq, sum_hours_insert]
    by_cases hm : uid' = uid ∧ st.data.work.work_date.getD "" = wd
    · rw [if_pos hm]
      rcases hm with ⟨h1, h2⟩
      rw [h1, h2] at hsum
      omega
    · rw [if_neg hm]
      omega

theorem run_work_flow_cap (users : UsersTable) (uid wd : String) (subs : List Submission)
    (db : ReportDB) (hdb : sum_hours_for_user_date db uid wd none ≤ 24) :
    sum_hours_for_user_date (run_work_flow users db subs) uid wd none ≤ 24 := by
  induction subs generalizing db with
  | nil => exact hdb
  | cons s rest ih =>
    exact ih ((handle_work_hours db users s.uid s.st s.hours).1)
      (handle_work_hours_cap db users s.uid s.st s.hours uid wd hdb)

end Polya

open Polya in
/-- C1: after any sequence of hour submissions through the work-logging flow
starting from an empty store, the stored sum of hours for every
(user, work date) pair stays at most 24; a submission whose hours would push
the existing sum past 24 is rejected with the over-limit message — which
reports the maximum additional hours `24 - already` — leaving the store and
the user's state unchanged. -/
theorem C1_daily_cap_invariant (users : UsersTable) (uid wd : String)
    (subs : List Submission) (db : ReportDB) (st : PolyaState) (h : Int)
    (hcomp : workComplete st.data.work = true)
    (hwd : st.data.work.work_date = some wd)
    (hover : sum_hours_for_user_date db uid wd none + h > 24) :
    sum_hours_for_user_date (run_work_flow users emptyDB subs) uid wd none ≤ 24
    ∧ handle_work_hours db users uid st h
        = (db, st,
           [.sendText (hoursLimitAddMsg (sum_hours_for_user_date db uid wd none) h)])
    ∧ (∃ pre post,
        hoursLimitAddMsg (sum_hours_for_user_date db uid wd none) h
          = pre ++ toString (24 - sum_hours_for_user_date db uid wd none) ++ post) := by
  refine ⟨?_, ?_, ?_⟩
  · exact run_work_flow_cap users uid wd subs emptyDB
      (by simp [sum_hours_for_user_date, emptyDB])
  · have hg : st.data.work.work_date.getD "" = wd := by rw [hwd]; rfl
    simp [handle_work_hours, hcomp, hg, hover]
  · exact ⟨_, "* ч.", rfl⟩

open Polya in
/-- C1 witness: the rejection clause applied to a store already holding 20
hours for ("emp", 2025-06-01) and a 5-hour submission. -/
theorem C1_daily_cap_invariant_witness :
    handle_work_hours demoDB20 [("emp", some "Иванов Иван")] "emp" demoWorkState 5
      = (demoDB20, demoWorkState,
         [.sendText (hoursLimitAddMsg
             (sum_hours_for_user_date demoDB20 "emp" "2025-06-01" none) 5)]) :=
  (C1_daily_cap_invariant [("emp", some "Иванов Иван")] "emp" "2025-06-01" []
    demoDB20 demoWorkState 5 (by decide) (by decide) (by decide)).2.1

end Terra
